import Mathlib

/-!
Shallow embedding of the `idempLib` Go package: an HTTP idempotency
middleware backed by a redis key-value store.  The package has two layers:

* a repository (`NewIdempotenceRepo`, `idempontencyRepoRedis.Exists`,
  `idempontencyRepoRedis.Save`, `constructKey`) over a go-redis client, and
* a middleware handler (`NewIdempotencyHandler`,
  `MiddlewareIdempotency`) that intercepts mutating HTTP requests and
  consults the repository through the `Idempotency-Key` request header.

The repository ships two versions of the handler file: the current
`IdempotencyHandler.go` (nil-tracer checks, padded variadic slice) and the
older `idempontecyService.go` (no padding, unconditional tracer use); both
are embedded, the older one under `service...` names.

Go-specific behaviour is modelled explicitly: `os.Getenv` is a total
function returning `""` for unset variables, a go-redis command carries a
value and an error where the value is the zero value on error, and run-time
panics (slice index out of range, nil interface dereference) are an
explicit `GoPanic` error channel.
-/

namespace IdempLib

/-- `IDEMP_HEDER`: the idempotency request header name. -/
def IDEMP_HEDER : String := "Idempotency-Key"

/-- `tooManyArgumentsError fnc`: the message of the error built by the
Go helper of the same name (`errors.New(fmt.Sprintf(...))`). -/
def tooManyArgumentsError (fnc : String) : String :=
  fnc ++ " : you passed in to many argumants into this function"

/-- `reqKey = "req:%s"` applied by `constructKey`: the backend key derived
from the idempotency token. -/
def constructKey (id : String) : String := "req:" ++ id

/-- Nanoseconds in Go's `time.Minute`. -/
def minuteNanos : Nat := 60 * 1000000000

/-- The expiry `time.Duration(3)*time.Minute` that `Save` passes to
`Set`, in nanoseconds. -/
def saveTTLNanos : Nat := 3 * minuteNanos

/-- A record stored in redis by `Save`: the boolean sentinel value and the
expiry it was written with. -/
structure RedisRecord where
  value : Bool
  ttlNanos : Nat
deriving DecidableEq, Repr

/-- The redis keyspace. -/
abbrev RedisDB := List (String × RedisRecord)

/-- Redis `SET`: store (or overwrite) a record under a key. -/
def dbSet (db : RedisDB) (key : String) (r : RedisRecord) : RedisDB :=
  (key, r) :: db.filter (fun p => p.1 ≠ key)

/-- Redis `EXISTS`: the number (0 or 1) of the given keys present. -/
def dbExists (db : RedisDB) (key : String) : Nat :=
  if (db.lookup key).isSome then 1 else 0

/-- A go-redis command result: `Val()` plus `Err()`.  When the command
failed, `Val()` is the zero value of its type. -/
structure RedisCmd (α : Type) where
  val : α
  err : Option String
deriving DecidableEq, Repr

/-- The go-redis client as the middleware observes it: the keyspace plus a
flag modelling an unreachable/failing backend. -/
structure RedisClient where
  db : RedisDB
  failing : Bool
deriving DecidableEq, Repr

/-- `cli.Exists(key)`: on a healthy backend, the key count; on a failing
backend, an error whose `Val()` is 0. -/
def cliExists (c : RedisClient) (key : String) : RedisCmd Nat :=
  if c.failing then { val := 0, err := some "redis: connection refused" }
  else { val := dbExists c.db key, err := none }

/-- `cli.Set(key, true, ttl)`: on a healthy backend, writes the record and
succeeds; on a failing backend, leaves the keyspace unchanged and errors. -/
def cliSet (c : RedisClient) (key : String) (v : Bool) (ttl : Nat) :
    RedisClient × RedisCmd Unit :=
  if c.failing then (c, { val := (), err := some "redis: connection refused" })
  else ({ c with db := dbSet c.db key { value := v, ttlNanos := ttl } },
        { val := (), err := none })

/-- The optional tracing collaborator `trace.Tracer`; `none` is Go's nil
interface value. -/
abbrev Tracer := Option Unit

/-- Go run-time panics that the embedded code can hit. -/
inductive GoPanic where
  | indexOutOfRange
  | nilPointerDereference
deriving DecidableEq, Repr

/-- `tracer.Start(...)` on a `trace.Tracer` interface value: dereferencing
a nil interface panics; a real tracer yields a span. -/
def tracerStart (t : Tracer) : Except GoPanic Unit :=
  match t with
  | none => Except.error GoPanic.nilPointerDereference
  | some _ => Except.ok ()

namespace idempontencyRepoRedis

/-- `idempontencyRepoRedis.Exists`: `i.cli.Exists(constructKey(id)).Val() == 1`.
The command error, if any, is not inspected: `Val()` is 0 then and the
method returns `false`.  (The tracer branch only opens a span.) -/
def Exists (c : RedisClient) (id : String) : Bool :=
  (cliExists c (constructKey id)).val == 1

/-- `idempontencyRepoRedis.Save`: `i.cli.Set(constructKey(id), true, 3*time.Minute)`,
returning `("", err)` on a command error and `(id, nil)` on success.  The
traced and untraced branches run the same `Set`; the tracer branch only
records error status on the span. -/
def Save (c : RedisClient) (id : String) : RedisClient × Except String String :=
  let key := constructKey id
  let res := cliSet c key true saveTTLNanos
  match res.2.err with
  | some e => (res.1, Except.error e)
  | none => (res.1, Except.ok id)

end idempontencyRepoRedis

/-- HTTP headers; `Header.Get` is an association lookup. -/
abbrev Header := List (String × String)

/-- Go `http.Header.Get`: the first value under the key, `""` when the
header is absent. -/
def headerGet (h : Header) (key : String) : String :=
  match h.lookup key with
  | some v => v
  | none => ""

/-- An inbound HTTP request as the middleware reads it. -/
structure Request where
  method : String
  header : Header
deriving DecidableEq, Repr

/-- Observable outcome of one middleware invocation: the status written by
the middleware itself (if any), how many times `next.ServeHTTP` ran, the
backend after the request, and how many repository calls were made. -/
structure MwOut where
  status : Option Nat
  downstreamCalls : Nat
  client : RedisClient
  existsCalls : Nat
  saveCalls : Nat
deriving DecidableEq, Repr

/-- The body shared verbatim by the traced and untraced branches of
`MiddlewareIdempotency` (they differ only in the context passed to the
repository): `if Header.Get != "" && repo.Exists(...) { 200 } else { repo.Save(...) ; next }`.
Go's `&&` short-circuits, so with an empty header value `Exists` is not
called, yet the `else` branch still calls `Save` — with the empty id.  The
`(string, error)` result of `Save` is discarded. -/
def claimBody (c : RedisClient) (h : Request) : MwOut :=
  if headerGet h.header IDEMP_HEDER != "" then
    if idempontencyRepoRedis.Exists c (headerGet h.header IDEMP_HEDER) then
      { status := some 200, downstreamCalls := 0, client := c,
        existsCalls := 1, saveCalls := 0 }
    else
      { status := none, downstreamCalls := 1,
        client := (idempontencyRepoRedis.Save c (headerGet h.header IDEMP_HEDER)).1,
        existsCalls := 1, saveCalls := 1 }
  else
    { status := none, downstreamCalls := 1,
      client := (idempontencyRepoRedis.Save c (headerGet h.header IDEMP_HEDER)).1,
      existsCalls := 0, saveCalls := 1 }

/-- `MiddlewareIdempotency` of `IdempotencyHandler.go`: mutating methods
(POST, PUT, PATCH, DELETE) go through the claim logic — under a
`handler.Tracer != nil` check, the traced branch opens a span first —
while all other methods fall through to `next.ServeHTTP` untouched. -/
def MiddlewareIdempotency (tracer : Tracer) (c : RedisClient) (h : Request) :
    Except GoPanic MwOut :=
  if h.method == "POST" || h.method == "PUT" || h.method == "PATCH"
      || h.method == "DELETE" then
    if tracer.isSome then
      match tracerStart tracer with
      | Except.error p => Except.error p
      | Except.ok _ => Except.ok (claimBody c h)
    else
      Except.ok (claimBody c h)
  else
    Except.ok { status := none, downstreamCalls := 1, client := c,
                existsCalls := 0, saveCalls := 0 }

/-- `MiddlewareIdempotency` of `idempontecyService.go`: same claim logic,
but `service.Tracer.Start(...)` is called unconditionally, so a nil tracer
panics on every mutating request. -/
def serviceMiddlewareIdempotency (tracer : Tracer) (c : RedisClient) (h : Request) :
    Except GoPanic MwOut :=
  if h.method == "POST" || h.method == "PUT" || h.method == "PATCH"
      || h.method == "DELETE" then
    match tracerStart tracer with
    | Except.error p => Except.error p
    | Except.ok _ => Except.ok (claimBody c h)
  else
    Except.ok { status := none, downstreamCalls := 1, client := c,
                existsCalls := 0, saveCalls := 0 }

/-- The process environment, `os.Getenv`: `""` for unset variables. -/
abbrev Env := String → String

/-- The value `NewIdempotenceRepo` returns: a redis client wired to
`host:port` plus the resolved tracer. -/
structure RepoInstance where
  addr : String
  tracer : Tracer
deriving DecidableEq, Repr

/-- `NewIdempotenceRepo`: rejects more than one tracer, pads an empty
variadic slice with a nil tracer, reads `IDEMPOTENCE_REDIS_HOST` and
`IDEMPOTENCE_REDIS_PORT`, errors when either is empty, and otherwise
builds a client on `host:port`. -/
def NewIdempotenceRepo (env : Env) (tracer : List Tracer) :
    Except String RepoInstance :=
  if tracer.length > 1 then
    Except.error (tooManyArgumentsError "NewIdempotenceRepo")
  else
    let tracer := if tracer.length == 0 then [(none : Tracer)] else tracer
    let host := env "IDEMPOTENCE_REDIS_HOST"
    let port := env "IDEMPOTENCE_REDIS_PORT"
    if host == "" || port == "" then
      Except.error "couldn't read .env variables for IDEMPOTENCE_REDIS_HOST,IDEMPOTENCE_REDIS_PORT. Please check if you provided them correctly"
    else
      Except.ok { addr := host ++ ":" ++ port, tracer := tracer.headD none }

/-- The value `NewIdempotencyHandler` returns. -/
structure HandlerInstance where
  repo : RepoInstance
  tracer : Tracer
deriving DecidableEq, Repr

/-- `NewIdempotencyHandler` of `IdempotencyHandler.go`: rejects more than
one tracer (error text names "NewIdempotencyService"), pads an empty slice
with a nil tracer, then builds the repository with `tracer[0]` and
propagates its error. -/
def NewIdempotencyHandler (env : Env) (tracer : List Tracer) :
    Except String HandlerInstance :=
  if tracer.length > 1 then
    Except.error (tooManyArgumentsError "NewIdempotencyService")
  else
    let tracer := if tracer.length == 0 then [(none : Tracer)] else tracer
    match NewIdempotenceRepo env [tracer.headD none] with
    | Except.error e => Except.error e
    | Except.ok r => Except.ok { repo := r, tracer := tracer.headD none }

/-- `NewIdempotencyHandler` of `idempontecyService.go`: identical except
that the empty variadic slice is never padded, so the `tracer[0]` on the
next line indexes an empty slice — a run-time panic. -/
def serviceNewIdempotencyHandler (env : Env) (tracer : List Tracer) :
    Except GoPanic (Except String HandlerInstance) :=
  if tracer.length > 1 then
    Except.ok (Except.error (tooManyArgumentsError "NewIdempotencyService"))
  else
    match tracer.head? with
    | none => Except.error GoPanic.indexOutOfRange
    | some t =>
      match NewIdempotenceRepo env [t] with
      | Except.error e => Except.ok (Except.error e)
      | Except.ok r => Except.ok (Except.ok { repo := r, tracer := t })

/-! ### Interleaving model of the two-step claim

One middleware caller on a mutating request with a non-empty token runs,
against the shared backend, first the `Exists` read and then — when it
observed absence — the `Set` write, as two separate backend operations.
`claimStep` is one backend operation of one caller; a schedule interleaves
the steps of several concurrent callers. -/

/-- One in-flight claim attempt: the token, the value the `Exists` step
observed (once taken), and the final outcome — `some true` when the caller
saved and proceeded downstream, `some false` when it short-circuited
with 200. -/
structure ClaimAttempt where
  token : String
  observed : Option Bool
  outcome : Option Bool
deriving DecidableEq, Repr

/-- One backend step of one claim attempt, exactly the order of the source:
read `EXISTS constructKey(token)` first; then, on observed absence, write
the record and proceed, or on observed presence, answer 200. -/
def claimStep (db : RedisDB) (a : ClaimAttempt) : RedisDB × ClaimAttempt :=
  match a.observed, a.outcome with
  | none, _ =>
    (db, { a with observed := some (dbExists db (constructKey a.token) == 1) })
  | some true, none => (db, { a with outcome := some false })
  | some false, none =>
    (dbSet db (constructKey a.token) { value := true, ttlNanos := saveTTLNanos },
     { a with outcome := some true })
  | some _, some _ => (db, a)

/-- Run a schedule: each entry picks which attempt performs its next
backend operation. -/
def runSchedule (db : RedisDB) (as : List ClaimAttempt) :
    List Nat → RedisDB × List ClaimAttempt
  | [] => (db, as)
  | i :: rest =>
    match as[i]? with
    | none => runSchedule db as rest
    | some a =>
      let r := claimStep db a
      runSchedule r.1 (as.set i r.2) rest

end IdempLib

namespace IdempLib

/-- Whether a Go `(value, error)` result carries an error. -/
def isError {ε α : Type} : Except ε α → Bool
  | Except.error _ => true
  | Except.ok _ => false

theorem lookup_dbSet_self (db : RedisDB) (k : String) (r : RedisRecord) :
    (dbSet db k r).lookup k = some r := by
  simp [dbSet, List.lookup]

theorem dbExists_dbSet_self (db : RedisDB) (k : String) (r : RedisRecord) :
    dbExists (dbSet db k r) k = 1 := by
  simp [dbExists, lookup_dbSet_self]

end IdempLib

namespace IdempLib

/-- C1: the claim asserts that claiming a token is a single atomic backend
operation, so that N concurrent claim attempts on the same token yield
exactly one caller proceeding.  The source instead runs a separate
`Exists` read and a separate `Set` write; under the interleaving where two
concurrent callers of token "abc" both run their `Exists` step before
either runs its `Set` step (schedule caller 0, caller 1, caller 0,
caller 1 on an empty store), both observe absence and both proceed
downstream — two claimed outcomes instead of one. -/
theorem claimRace_two_callers_both_proceed :
    ((runSchedule []
        [{ token := "abc", observed := none, outcome := none },
         { token := "abc", observed := none, outcome := none }]
        [0, 1, 0, 1]).2.map ClaimAttempt.outcome) = [some true, some true] := by
  rfl

/-- C2: on a mutating request carrying a non-empty `Idempotency-Key`, with
a healthy store: if the store reports the token claimed, the middleware
writes HTTP 200 and never invokes the downstream handler; if the store
reports it fresh, the middleware records the token (key `constructKey`,
sentinel `true`, the 3-minute expiry) and invokes the downstream handler
exactly once. -/
theorem middleware_claim_decision (tracer : Tracer) (c : RedisClient) (h : Request)
    (hm : h.method = "POST" ∨ h.method = "PUT" ∨ h.method = "PATCH" ∨ h.method = "DELETE")
    (hk : headerGet h.header IDEMP_HEDER ≠ "")
    (hf : c.failing = false) :
    (idempontencyRepoRedis.Exists c (headerGet h.header IDEMP_HEDER) = true →
      MiddlewareIdempotency tracer c h =
        Except.ok { status := some 200, downstreamCalls := 0, client := c,
                    existsCalls := 1, saveCalls := 0 }) ∧
    (idempontencyRepoRedis.Exists c (headerGet h.header IDEMP_HEDER) = false →
      MiddlewareIdempotency tracer c h =
        Except.ok { status := none, downstreamCalls := 1,
                    client := { db := dbSet c.db (constructKey (headerGet h.header IDEMP_HEDER))
                                        { value := true, ttlNanos := saveTTLNanos },
                                failing := false },
                    existsCalls := 1, saveCalls := 1 }) := by
  have hmb : (h.method == "POST" || h.method == "PUT" || h.method == "PATCH"
      || h.method == "DELETE") = true := by
    rcases hm with h1 | h1 | h1 | h1 <;> simp [h1]
  have hbody : ∀ out : MwOut, claimBody c h = out →
      MiddlewareIdempotency tracer c h = Except.ok out := by
    intro out hout
    cases tracer with
    | none => simp [MiddlewareIdempotency, hmb, hout]
    | some u => simp [MiddlewareIdempotency, hmb, tracerStart, hout]
  constructor
  · intro hex
    exact hbody _ (by simp [claimBody, hk, hex])
  · intro hex
    apply hbody
    simp [claimBody, hk, hex, idempontencyRepoRedis.Save, cliSet, hf]

/-- C3: the claim asserts that a mutating request with an absent or empty
`Idempotency-Key` is forwarded with no store call at all.  On the code, a
POST with no header makes no `Exists` call (Go's `&&` short-circuits) but
does fall into the `else` branch, which calls `Save` with the empty token:
one store write of key `"req:"` occurs before the request is forwarded. -/
theorem middleware_empty_key_writes_store :
    MiddlewareIdempotency none { db := [], failing := false }
        { method := "POST", header := [] } =
      Except.ok { status := none, downstreamCalls := 1,
                  client := { db := [("req:", { value := true, ttlNanos := saveTTLNanos })],
                              failing := false },
                  existsCalls := 0, saveCalls := 1 } := by
  rfl

/-- C4: the claim asserts that a store error during a claim attempt is
surfaced and resolved by an explicit fail-open/fail-closed policy.  On the
code, with a failing backend and a POST carrying key "k1": `Exists`
collapses the command error into `Val() == 1`, i.e. `false`; `Save` is
then attempted and its returned error — shown in the second conjunct to be
a real connection error — is discarded by the middleware; the request is
forwarded downstream with no status written, exactly as if no error had
occurred. -/
theorem middleware_store_error_swallowed :
    MiddlewareIdempotency none { db := [], failing := true }
        { method := "POST", header := [(IDEMP_HEDER, "k1")] } =
      Except.ok { status := none, downstreamCalls := 1,
                  client := { db := [], failing := true },
                  existsCalls := 1, saveCalls := 1 } ∧
    (idempontencyRepoRedis.Save { db := [], failing := true } "k1").2 =
      Except.error "redis: connection refused" := by
  exact ⟨rfl, rfl⟩

/-- C5: a request whose method is none of POST, PUT, PATCH, DELETE is
forwarded to the downstream handler unconditionally — whatever its headers
and whatever the backend state — with no store operation performed and the
backend left unchanged. -/
theorem middleware_non_mutating_forwards (tracer : Tracer) (c : RedisClient) (h : Request)
    (h1 : h.method ≠ "POST") (h2 : h.method ≠ "PUT") (h3 : h.method ≠ "PATCH")
    (h4 : h.method ≠ "DELETE") :
    MiddlewareIdempotency tracer c h =
      Except.ok { status := none, downstreamCalls := 1, client := c,
                  existsCalls := 0, saveCalls := 0 } := by
  simp [MiddlewareIdempotency, h1, h2, h3, h4]

/-- C6: on a healthy backend, every record `Save` writes is stored under
`constructKey id` with expiry exactly 3 minutes (3 × 60 × 10⁹
nanoseconds). -/
theorem save_ttl_is_three_minutes (c : RedisClient) (id : String)
    (hf : c.failing = false) :
    ((idempontencyRepoRedis.Save c id).1).db.lookup (constructKey id) =
      some { value := true, ttlNanos := 3 * 60 * 1000000000 } := by
  simp [idempontencyRepoRedis.Save, cliSet, hf, lookup_dbSet_self,
        saveTTLNanos, minuteNanos]

/-- C7: when `IDEMPOTENCE_REDIS_HOST` or `IDEMPOTENCE_REDIS_PORT` is unset
or empty, `NewIdempotenceRepo` returns an error, and so does
`NewIdempotencyHandler` — whatever the tracer arguments — so construction
fails at construction time. -/
theorem missing_env_fails_construction (env : Env) (tracer : List Tracer)
    (he : env "IDEMPOTENCE_REDIS_HOST" = "" ∨ env "IDEMPOTENCE_REDIS_PORT" = "") :
    isError (NewIdempotenceRepo env tracer) = true ∧
    isError (NewIdempotencyHandler env tracer) = true := by
  have hb : (env "IDEMPOTENCE_REDIS_HOST" == "" || env "IDEMPOTENCE_REDIS_PORT" == "")
      = true := by
    rcases he with he | he <;> simp [he]
  constructor
  · by_cases hlen : tracer.length > 1
    · simp [NewIdempotenceRepo, hlen, isError]
    · simp [NewIdempotenceRepo, hlen, hb, isError]
  · by_cases hlen : tracer.length > 1
    · simp [NewIdempotencyHandler, hlen, isError]
    · simp [NewIdempotencyHandler, NewIdempotenceRepo, hlen, hb, isError]

/-- C8: the claim asserts that construction with zero tracer arguments
succeeds and yields a panic-free handler.  `NewIdempotencyHandler` of
`idempontecyService.go` never pads the empty variadic slice, so with zero
tracer arguments it evaluates `tracer[0]` on an empty slice and panics
with an index-out-of-range — for every environment, valid backend
configuration included. -/
theorem service_zero_tracer_construction_panics (env : Env) :
    serviceNewIdempotencyHandler env [] = Except.error GoPanic.indexOutOfRange := by
  rfl

/-- C9: supplying more than one tracer argument makes
`NewIdempotencyHandler` and `NewIdempotenceRepo` return their
too-many-arguments error (and no instance) at construction time, whatever
the environment. -/
theorem too_many_tracers_error (env : Env) (tracer : List Tracer)
    (hlen : tracer.length > 1) :
    NewIdempotencyHandler env tracer =
      Except.error (tooManyArgumentsError "NewIdempotencyService") ∧
    NewIdempotenceRepo env tracer =
      Except.error (tooManyArgumentsError "NewIdempotenceRepo") := by
  constructor
  · simp [NewIdempotencyHandler, hlen]
  · simp [NewIdempotenceRepo, hlen]

/-- C10: `Save` writes under exactly the key `constructKey id` that
`Exists` later tests: on a healthy backend, after `Save c id` the record
is present under `constructKey id` and `Exists` on the same id reports
`true`. -/
theorem save_exists_key_agreement (c : RedisClient) (id : String)
    (hf : c.failing = false) :
    (((idempontencyRepoRedis.Save c id).1).db.lookup (constructKey id)).isSome = true ∧
    idempontencyRepoRedis.Exists ((idempontencyRepoRedis.Save c id).1) id = true := by
  constructor
  · simp [idempontencyRepoRedis.Save, cliSet, hf, lookup_dbSet_self]
  · simp [idempontencyRepoRedis.Exists, idempontencyRepoRedis.Save, cliSet, hf,
          cliExists, dbExists_dbSet_self]

end IdempLib

namespace IdempLib

/-- Witness for C2: a POST carrying key "abc" against an empty healthy
store is fresh, gets recorded, and goes downstream once. -/
theorem middleware_claim_decision_witness :
    MiddlewareIdempotency none { db := [], failing := false }
        { method := "POST", header := [(IDEMP_HEDER, "abc")] } =
      Except.ok { status := none, downstreamCalls := 1,
                  client := { db := [(constructKey "abc",
                                      { value := true, ttlNanos := saveTTLNanos })],
                              failing := false },
                  existsCalls := 1, saveCalls := 1 } :=
  (middleware_claim_decision none { db := [], failing := false }
      { method := "POST", header := [(IDEMP_HEDER, "abc")] }
      (Or.inl rfl) (by decide) rfl).2 (by decide)

/-- Witness for C5: a GET with an `Idempotency-Key` header is forwarded
untouched. -/
theorem middleware_non_mutating_forwards_witness :
    MiddlewareIdempotency (some ()) { db := [], failing := false }
        { method := "GET", header := [(IDEMP_HEDER, "abc")] } =
      Except.ok { status := none, downstreamCalls := 1,
                  client := { db := [], failing := false },
                  existsCalls := 0, saveCalls := 0 } :=
  middleware_non_mutating_forwards (some ()) { db := [], failing := false }
    { method := "GET", header := [(IDEMP_HEDER, "abc")] }
    (by decide) (by decide) (by decide) (by decide)

/-- Witness for C6: saving "abc" on an empty healthy store writes the
3-minute record. -/
theorem save_ttl_is_three_minutes_witness :
    ((idempontencyRepoRedis.Save { db := [], failing := false } "abc").1).db.lookup
        (constructKey "abc") =
      some { value := true, ttlNanos := 3 * 60 * 1000000000 } :=
  save_ttl_is_three_minutes { db := [], failing := false } "abc" rfl

/-- Witness for C7: the all-empty environment fails both constructors. -/
theorem missing_env_fails_construction_witness :
    isError (NewIdempotenceRepo (fun _ => "") []) = true ∧
    isError (NewIdempotencyHandler (fun _ => "") []) = true :=
  missing_env_fails_construction (fun _ => "") [] (Or.inl rfl)

/-- Witness for C9: two tracer arguments are rejected by both constructors. -/
theorem too_many_tracers_error_witness :
    NewIdempotencyHandler (fun _ => "") [none, none] =
      Except.error (tooManyArgumentsError "NewIdempotencyService") ∧
    NewIdempotenceRepo (fun _ => "") [none, none] =
      Except.error (tooManyArgumentsError "NewIdempotenceRepo") :=
  too_many_tracers_error (fun _ => "") [none, none] (by decide)

/-- Witness for C10: after saving "abc" on an empty healthy store, the
record sits under `constructKey "abc"` and `Exists` reports it. -/
theorem save_exists_key_agreement_witness :
    (((idempontencyRepoRedis.Save { db := [], failing := false } "abc").1).db.lookup
        (constructKey "abc")).isSome = true ∧
    idempontencyRepoRedis.Exists
        ((idempontencyRepoRedis.Save { db := [], failing := false } "abc").1) "abc" = true :=
  save_exists_key_agreement { db := [], failing := false } "abc" rfl

end IdempLib
